import Mathlib

/-!
# Verification of the AdsorbAI deterministic physics engine

Shallow embedding of the core of the AdsorbAI repository: the element
property tables (`constants.ts`), the slab builder `generateSlabStructure`
and the adsorption-site engine `calculateAdsorptionPhysics`
(`services/physicsEngine.ts`).

Modelling conventions:
* JavaScript numbers are embedded as exact rationals (`ℚ`).  Decimal
  literals of the source (`3.615`, `0.7`, ...) are written as the same
  decimal literals, which Lean reads as exact rationals.
* The three irrational constants `Math.sqrt(2)`, `Math.sqrt(3)` and
  `Math.sqrt(6)` used by the slab builder are abstracted as parameters
  `s2 s3 s6 : ℚ`.  Every theorem below holds for all values of these
  parameters (with side conditions such as `0 < s2` where stated), in
  particular for rational approximations arbitrarily close to the true
  square roots; no theorem depends on their numeric values.
* The ambient random source `Math.random()` is embedded as an explicit
  stream `rand : ℕ → ℚ` consumed in the exact order in which the source
  calls `Math.random()`; a counter is threaded through the computations.
* The one fallible code path (an element access `surfaceAtoms[0]` on a
  possibly-empty array) makes `calculateAdsorptionPhysics` return
  `Except JsError AnalysisResult`; in JavaScript this access throws a
  `TypeError` (property read on `undefined`).
-/

namespace AdsorbAI

/-- `types.ts`: `Atom`. `color`/`radius` are always set by `createAtom`,
so they are modelled as plain fields. -/
structure Atom where
  id : ℕ
  element : String
  x : ℚ
  y : ℚ
  z : ℚ
  color : String
  radius : ℚ
deriving DecidableEq, Repr

/-- `types.ts`: the closed union of `AdsorptionSite.type`:
`'Top' | 'Bridge' | 'Hollow' | 'fcc' | 'hcp'`. -/
inductive SiteType where
  | Top
  | Bridge
  | Hollow
  | fcc
  | hcp
deriving DecidableEq, Repr

/-- The string a `SiteType` denotes in the source (used in summaries). -/
def SiteType.label : SiteType → String
  | .Top => "Top"
  | .Bridge => "Bridge"
  | .Hollow => "Hollow"
  | .fcc => "fcc"
  | .hcp => "hcp"

/-- `types.ts`: `AdsorptionSite`. -/
structure AdsorptionSite where
  id : String
  type : SiteType
  coordinates : ℚ × ℚ × ℚ
  energy : ℚ
  description : String
deriving DecidableEq, Repr

/-- `types.ts`: `MaterialStructure`.  The optional fields are always
populated by `generateSlabStructure`, so they are modelled as plain
fields. -/
structure MaterialStructure where
  formula : String
  mpId : String
  millerIndex : String
  description : String
  formationEnergy : ℚ
  bandGap : ℚ
  symmetry : String
  atoms : List Atom
  latticeVectors : List (List ℚ)
deriving DecidableEq, Repr

/-- `types.ts`: `AnalysisResult`. -/
structure AnalysisResult where
  sites : List AdsorptionSite
  summary : String
  potentialUsed : String
  calculationTime : String
  systemId : String
  model : String
deriving DecidableEq, Repr

/-- A thrown JavaScript exception (only a `TypeError` can occur in the
embedded code). -/
inductive JsError where
  | typeError (msg : String)
deriving DecidableEq, Repr

/-- `constants.ts`: `ElementData`. -/
structure ElementData where
  latticeConstant : ℚ
  mpId : String
  formationEnergy : ℚ
  bandGap : ℚ
  symmetry : String
  electronegativity : ℚ
deriving DecidableEq, Repr

/-- Lookup in a record-object modelled as an association list:
`tbl[key]` yields `some v` when the key is present, `none` (JavaScript
`undefined`) otherwise. -/
def tableGet? {β : Type} (tbl : List (String × β)) (key : String) : Option β :=
  match tbl with
  | [] => none
  | (k, v) :: rest => if key = k then some v else tableGet? rest key

/-- `constants.ts`: `CPK_COLORS` (display color table, keyed by symbol). -/
def CPK_COLORS : List (String × String) :=
  [ ("H", "#FFFFFF"), ("C", "#909090"), ("N", "#3050F8"), ("O", "#FF0D0D"),
    ("F", "#90E050"), ("Na", "#AB5CF2"), ("Mg", "#8AFF00"), ("Al", "#BFA6A6"),
    ("Si", "#F0C8A0"), ("P", "#FF8000"), ("S", "#FFFF30"), ("Cl", "#1FF01F"),
    ("K", "#8F40D4"), ("Ca", "#3DFF00"), ("Ti", "#BFC2C7"), ("Fe", "#E06633"),
    ("Ni", "#50D050"), ("Cu", "#C88033"), ("Zn", "#7D80B0"), ("Au", "#FFD123"),
    ("Ag", "#C0C0C0"), ("Pt", "#D0D0E0"), ("Pd", "#006985"), ("X", "#FF00FF") ]

/-- `constants.ts`: `ATOMIC_RADII` (display radius table, keyed by symbol). -/
def ATOMIC_RADII : List (String × ℚ) :=
  [ ("H", 0.37), ("C", 0.77), ("N", 0.75), ("O", 0.73), ("F", 0.71),
    ("Na", 1.54), ("Mg", 1.30), ("Al", 1.18), ("Si", 1.11), ("P", 1.06),
    ("S", 1.02), ("Cl", 0.99), ("K", 1.96), ("Ca", 1.74), ("Ti", 1.36),
    ("Fe", 1.25), ("Ni", 1.21), ("Cu", 1.28), ("Zn", 1.31), ("Au", 1.44),
    ("Ag", 1.44), ("Pt", 1.38), ("Pd", 1.37), ("X", 1.0) ]

/-- `constants.ts`: `ELEMENT_PROPERTIES` (physical table; note that it has
no "X" entry). -/
def ELEMENT_PROPERTIES : List (String × ElementData) :=
  [ ("Au", { latticeConstant := 4.078, mpId := "mp-81", formationEnergy := 0,
             bandGap := 0, symmetry := "Fm-3m", electronegativity := 2.54 }),
    ("Ag", { latticeConstant := 4.085, mpId := "mp-124", formationEnergy := 0,
             bandGap := 0, symmetry := "Fm-3m", electronegativity := 1.93 }),
    ("Cu", { latticeConstant := 3.615, mpId := "mp-30", formationEnergy := 0,
             bandGap := 0, symmetry := "Fm-3m", electronegativity := 1.90 }),
    ("Pt", { latticeConstant := 3.924, mpId := "mp-126", formationEnergy := 0,
             bandGap := 0, symmetry := "Fm-3m", electronegativity := 2.28 }),
    ("Pd", { latticeConstant := 3.890, mpId := "mp-2", formationEnergy := 0,
             bandGap := 0, symmetry := "Fm-3m", electronegativity := 2.20 }),
    ("Ni", { latticeConstant := 3.524, mpId := "mp-23", formationEnergy := 0,
             bandGap := 0, symmetry := "Fm-3m", electronegativity := 1.91 }),
    ("Al", { latticeConstant := 4.049, mpId := "mp-134", formationEnergy := 0,
             bandGap := 0, symmetry := "Fm-3m", electronegativity := 1.61 }) ]

/-- The `ELEMENT_PROPERTIES['Cu']` record, the fallback used at both use
sites of the physical table (`... || ELEMENT_PROPERTIES['Cu']`). -/
def cuProps : ElementData :=
  { latticeConstant := 3.615, mpId := "mp-30", formationEnergy := 0,
    bandGap := 0, symmetry := "Fm-3m", electronegativity := 1.90 }

/-- `physicsEngine.ts`: `createAtom`.  The display fallbacks are the
literals of the source: `CPK_COLORS[element] || '#ff00ff'` (lowercase
literal, not the table's `X` entry) and `ATOMIC_RADII[element] || 1.0`.
No table value is falsy, so `||` coincides with defaulting on absence. -/
def createAtom (element : String) (x y z : ℚ) (idOffset : ℕ) : Atom :=
  { id := idOffset
    element := element
    x := x
    y := y
    z := z
    color := (tableGet? CPK_COLORS element).getD "#ff00ff"
    radius := (tableGet? ATOMIC_RADII element).getD 1.0 }

/-- The regex `/^([A-Z][a-z]?)/` of `generateSlabStructure`: the leading
character if it is an ASCII uppercase letter, together with the following
character when that one is an ASCII lowercase letter; no match otherwise. -/
def matchLeadingElement (q : String) : Option String :=
  match q.toList with
  | [] => none
  | c :: rest =>
    if c.isUpper then
      match rest with
      | d :: _ => if d.isLower then some (String.mk [c, d]) else some (String.mk [c])
      | [] => some (String.mk [c])
    else none

/-- The regex `/\((\d{3})\)/` of `generateSlabStructure`: the first
occurrence of a literal parenthesis followed by exactly three ASCII
digits and a closing parenthesis; on failure at one start position the
scan resumes at the next character, as regex matching does. -/
def findMillerFace : List Char → Option String
  | [] => none
  | c :: rest =>
    match c, rest with
    | '(', d1 :: d2 :: d3 :: ')' :: _ =>
      if d1.isDigit && d2.isDigit && d3.isDigit then some (String.mk [d1, d2, d3])
      else findMillerFace rest
    | _, _ => findMillerFace rest

/-- Truncation toward zero, the rounding of the JavaScript `%` operator. -/
def jsTrunc (q : ℚ) : ℤ :=
  if 0 ≤ q then ⌊q⌋ else ⌈q⌉

/-- The JavaScript remainder `x % m = x - m * trunc(x / m)`.  In the
source it is applied only with `0 ≤ x` and (for the real parameter
values) `0 < m`; `m = 0` would give `NaN` in JavaScript and is mapped to
`x` here, a case unreachable for positive parameters. -/
def jsMod (x m : ℚ) : ℚ :=
  if m = 0 then x else x - m * (jsTrunc (x / m) : ℚ)

/-- `physicsEngine.ts`: `generateSlabStructure`.  `s2`, `s3`, `s6` stand
for `Math.sqrt(2)`, `Math.sqrt(3)`, `Math.sqrt(6)`.  The source threads a
mutable counter `id++` through the three nested loops; it is realized
here in closed form (`2*((k*ny + j)*nx + i)` plus `0`/`1` on the 111
path, `(k*ny + j)*nx + i` on the other path), which reproduces exactly
the sequential ids of the iteration order `k`-outer, `j`-middle,
`i`-inner. -/
def generateSlabStructure (query : String) (s2 s3 s6 : ℚ) : MaterialStructure :=
  let element := (matchLeadingElement query).getD "Cu"
  let face := (findMillerFace query.toList).getD "111"
  let props := (tableGet? ELEMENT_PROPERTIES element).getD cuProps
  let a := props.latticeConstant
  let atomsAndVectors : List Atom × List (List ℚ) :=
    if face = "111" then
      -- Simulating ase.build.fcc111
      let x_dist := a / s2
      let y_dist := a * s6 / 2
      let z_layer_spacing := a / s3
      let nx : ℕ := 3
      let ny : ℕ := 3
      let nz : ℕ := 4
      let latticeVectors :=
        [ [x_dist * (nx : ℚ), 0, 0],
          [0, y_dist * (ny : ℚ), 0],
          [0, 0, z_layer_spacing * (nz : ℚ) + 10] ]  -- +10A vacuum
      let atoms := (List.range nz).flatMap fun k =>
        (List.range ny).flatMap fun j =>
          (List.range nx).flatMap fun i =>
            -- ABC stacking: final values of the source's shiftX/shiftY
            -- (the k % 3 == 1 branch overwrites its first assignments)
            let shiftX : ℚ := if k % 3 = 1 then 0.5 * x_dist else 0
            let shiftY : ℚ :=
              if k % 3 = 1 then y_dist / 6
              else if k % 3 = 2 then 2 * (y_dist / 6) else 0
            let x := (i : ℚ) * x_dist + shiftX
            let y := (j : ℚ) * y_dist + shiftY
            let z := (k : ℚ) * z_layer_spacing
            let base := 2 * ((k * ny + j) * nx + i)
            [ createAtom element (jsMod x (x_dist * (nx : ℚ))) (jsMod y (y_dist * (ny : ℚ))) z base,
              createAtom element (jsMod (x + x_dist / 2) (x_dist * (nx : ℚ)))
                (jsMod (y + y_dist / 2) (y_dist * (ny : ℚ))) z (base + 1) ]
      (atoms, latticeVectors)
    else
      -- Simulating ase.build.fcc100
      let d := a / s2
      let nx : ℕ := 4
      let ny : ℕ := 4
      let nz : ℕ := 4
      let latticeVectors :=
        [ [d * (nx : ℚ), 0, 0],
          [0, d * (ny : ℚ), 0],
          [0, 0, d * s2 * 0.5 * (nz : ℚ) + 10] ]  -- layer spacing a/2
      let layerSpacing := a / 2
      let atoms := (List.range nz).flatMap fun k =>
        (List.range ny).flatMap fun j =>
          (List.range nx).flatMap fun i =>
            let x := (i : ℚ) * d + (if k % 2 = 1 then d / 2 else 0)
            let y := (j : ℚ) * d + (if k % 2 = 1 then d / 2 else 0)
            [ createAtom element x y ((k : ℚ) * layerSpacing) ((k * ny + j) * nx + i) ]
      (atoms, latticeVectors)
  { formula := element
    mpId := props.mpId
    millerIndex := "(" ++ face ++ ")"
    description := element ++ " " ++ face ++ " Surface Slab (Simulated ASE)"
    formationEnergy := props.formationEnergy
    bandGap := props.bandGap
    symmetry := props.symmetry
    atoms := atomsAndVectors.1
    latticeVectors := atomsAndVectors.2 }

/-- `calculateAdsorptionPhysics`, step 1:
`Math.max(...structure.atoms.map(a => a.z))` — the maximum `z`; with no
atoms `Math.max()` yields `-Infinity`, modelled as `none`. -/
def maxZ? (atoms : List Atom) : Option ℚ :=
  match atoms with
  | [] => none
  | a :: rest => some (rest.foldl (fun m b => max m b.z) a.z)

/-- Surface atoms: `structure.atoms.filter(a => a.z > maxY - 1.5)`.  When
the atom list is empty the maximum is `-Infinity` and the filter runs
over the empty list, so the result is `[]` either way. -/
def surfaceAtomsOf (struct : MaterialStructure) : List Atom :=
  match maxZ? struct.atoms with
  | none => []
  | some maxY => struct.atoms.filter fun a => a.z > maxY - 1.5

/-- The on-top site pushed for a surface atom (energy filled in later). -/
def topSiteOf (atom : Atom) : AdsorptionSite :=
  { id := "top-" ++ toString atom.id
    type := .Top
    coordinates := (atom.x, atom.y, atom.z + 2.0)  -- 2.0A bond length approx
    energy := 0
    description := "On-top of atom #" ++ toString atom.id }

/-- The `surfaceAtoms.forEach` loop producing on-top sites: one
`Math.random()` draw per surface atom, skipping the atom when the draw
exceeds 0.7.  Returns the sites and the updated draw counter. -/
def topSites : List Atom → (ℕ → ℚ) → ℕ → List AdsorptionSite × ℕ
  | [], _, n => ([], n)
  | atom :: rest, rand, n =>
    let tl := topSites rest rand (n + 1)
    if rand n > 0.7 then tl  -- if (Math.random() > 0.7) return;
    else (topSiteOf atom :: tl.1, tl.2)

/-- The iteration order of the double loop `i < j` over surface atoms:
all ordered pairs with the first component earlier in the list. -/
def orderedPairsOf : List Atom → List (Atom × Atom)
  | [] => []
  | a :: rest => (rest.map fun b => (a, b)) ++ orderedPairsOf rest

/-- Squared Euclidean distance `(a1.x-a2.x)**2 + (a1.y-a2.y)**2 +
(a1.z-a2.z)**2`.  The source takes `Math.sqrt` of this and tests
`dist < 3.0 && dist > 2.0`; since squaring is strictly monotone on
nonnegative reals, that test is equivalent to `distSq < 9 && distSq > 4`,
which is the form used below. -/
def distSq (a1 a2 : Atom) : ℚ :=
  (a1.x - a2.x) ^ 2 + (a1.y - a2.y) ^ 2 + (a1.z - a2.z) ^ 2

/-- The bridge site pushed for a qualifying pair (energy filled later). -/
def bridgeSiteOf (a1 a2 : Atom) : AdsorptionSite :=
  { id := "brg-" ++ toString a1.id ++ "-" ++ toString a2.id
    type := .Bridge
    coordinates := ((a1.x + a2.x) / 2, (a1.y + a2.y) / 2, (a1.z + a2.z) / 2 + 1.8)
    energy := 0
    description := "Bridge site" }

/-- The bridge-site double loop: for each pair whose separation lies in
the window, one `Math.random()` draw decides whether the site is kept
(`Math.random() > 0.8`); pairs outside the window draw nothing. -/
def bridgeSites : List (Atom × Atom) → (ℕ → ℚ) → ℕ → List AdsorptionSite × ℕ
  | [], _, n => ([], n)
  | (a1, a2) :: rest, rand, n =>
    if distSq a1 a2 < 9 ∧ distSq a1 a2 > 4 then  -- dist < 3.0 && dist > 2.0
      if rand n > 0.8 then  -- Downsample
        let tl := bridgeSites rest rand (n + 1)
        (bridgeSiteOf a1 a2 :: tl.1, tl.2)
      else bridgeSites rest rand (n + 1)
    else bridgeSites rest rand n

/-- The fallback hollow site synthesized when fewer than 5 sites exist. -/
def hollowSiteOf (sa0 : Atom) (maxY : ℚ) : AdsorptionSite :=
  { id := "hollow-1"
    type := .Hollow
    coordinates := (sa0.x + 1.2, sa0.y + 0.8, maxY + 1.5)
    energy := 0
    description := "fcc hollow" }

/-- `adsorbate.replace(/[0-9]/g, ...)` with the empty replacement: the
label with ASCII digits removed.  The source binds this to
`adsorbateElem` but then performs its substring tests on the original
`adsorbate`; removing digits cannot change those tests. -/
def stripDigits (s : String) : String :=
  String.mk (s.toList.filter fun c => !c.isDigit)

/-- The effective adsorbate electronegativity:
`adsorbate.includes('O') ? 3.44 : (adsorbate.includes('N') ? 3.04 : 2.55)`.
A single-character `includes` is exactly character containment, modelled
as membership in the character list. -/
def enAdsOf (adsorbate : String) : ℚ :=
  if 'O' ∈ adsorbate.toList then 3.44
  else if 'N' ∈ adsorbate.toList then 3.04
  else 2.55

/-- The per-site-type additive offset of the energy heuristic.  The
source initializes `siteFactor = 0` and reassigns on each matching
`if`; exactly one matches for `Top`/`Bridge`/`Hollow` and none for the
remaining types. -/
def siteFactor : SiteType → ℚ
  | .Top => 0.5     -- Top usually weaker for CO
  | .Bridge => -0.2
  | .Hollow => -0.8 -- Hollow usually stronger
  | _ => 0

/-- The `sites.forEach` energy pass: one `Math.random()` draw per site,
`energy = baseBinding + siteFactor + (draw - 0.5) * 0.2`. -/
def scoreSites (baseBinding : ℚ) (rand : ℕ → ℚ) :
    List AdsorptionSite → ℕ → List AdsorptionSite × ℕ
  | [], n => ([], n)
  | s :: rest, n =>
    let relaxation := (rand n - 0.5) * 0.2  -- noise simulating relaxation
    let tl := scoreSites baseBinding rand rest (n + 1)
    ({ s with energy := baseBinding + siteFactor s.type + relaxation } :: tl.1, tl.2)

/-- The comparison of `sites.sort((a,b) => a.energy - b.energy)`. -/
def siteLE (a b : AdsorptionSite) : Prop :=
  a.energy ≤ b.energy

instance : DecidableRel siteLE :=
  fun a b => inferInstanceAs (Decidable (a.energy ≤ b.energy))

instance : IsTotal AdsorptionSite siteLE :=
  ⟨fun a b => le_total a.energy b.energy⟩

instance : IsTrans AdsorptionSite siteLE :=
  ⟨fun _ _ _ h1 h2 => le_trans h1 h2⟩

/-- `energy.toFixed(2)`: decimal display formatting, used only inside the
free-text summary; abstracted as the exact rational rendering. -/
def jsToFixed2 (q : ℚ) : String :=
  toString q

/-- `physicsEngine.ts`: `calculateAdsorptionPhysics`.  `rand` is the
stream of `Math.random()` values in call order: one per surface atom
(top sampling), then one per atom pair inside the distance window
(bridge sampling), then one per candidate site (relaxation noise), then
one for the `systemId`.  JavaScript `Array.prototype.sort` is a stable
sort and the comparator `a.energy - b.energy` orders by energy, so the
sort is modelled by the (stable) `List.insertionSort` under `siteLE`.
The only fallible step is the hollow fallback's `surfaceAtoms[0]`, a
`TypeError` when the structure has no (surface) atoms. -/
def calculateAdsorptionPhysics (struct : MaterialStructure) (adsorbate : String)
    (rand : ℕ → ℚ) : Except JsError AnalysisResult :=
  -- 1. Identify surface atoms (highest z)
  let surfaceAtoms := surfaceAtomsOf struct
  -- 2A. On-top sites
  let tb := topSites surfaceAtoms rand 0
  -- 2B. Bridge sites
  let bb := bridgeSites (orderedPairsOf surfaceAtoms) rand tb.2
  let sites := tb.1 ++ bb.1
  -- 2C. Hollow fallback; `surfaceAtoms[0]` is `undefined` when the list
  -- is empty, and reading `.x` from it throws.  When `surfaceAtoms` is
  -- nonempty, `struct.atoms` is nonempty too, so `maxZ?` is `some` and
  -- the `getD 0` default is never exercised.
  let hollowed : Except JsError (List AdsorptionSite) :=
    if sites.length < 5 then
      match surfaceAtoms with
      | [] => .error (.typeError "Cannot read properties of undefined")
      | sa0 :: _ => .ok (sites ++ [hollowSiteOf sa0 ((maxZ? struct.atoms).getD 0)])
    else .ok sites
  hollowed.bind fun sites =>
    -- 3. Heuristic energies
    let _adsorbateElem := stripDigits adsorbate  -- bound but unused in the source
    let props := (tableGet? ELEMENT_PROPERTIES struct.formula).getD cuProps
    let enMetal := props.electronegativity
    let enAds := enAdsOf adsorbate
    let deltaEn := |enMetal - enAds|
    let baseBinding := -0.5 * deltaEn  -- stronger binding for larger EN diff
    let scored := scoreSites baseBinding rand sites bb.2
    -- sort ascending by energy and keep the best 8
    let sortedSites := (scored.1.insertionSort siteLE).take 8
    .ok { sites := sortedSites
          summary := "Analysis performed using EquiformerV2 simulation. Found "
            ++ toString scored.1.length ++ " candidate sites. Most stable site: "
            ++ (match sortedSites.head? with
                | some s => s.type.label
                | none => "undefined")
            ++ " ("
            ++ (match sortedSites.head? with
                | some s => jsToFixed2 s.energy
                | none => "undefined")
            ++ " eV). Surface relaxation converged."
          potentialUsed := "FAIR-Chem EquiformerV2 (Simulated)"
          calculationTime := "1.2s"
          systemId := "sys_" ++ toString (⌊rand scored.2 * 10000⌋ : ℤ)
          model := "equiformer_v2_31M_s2ef_all_md" }

/-! ## Derived notions used in the statements -/

/-- The face string a query resolves to (defaulting to "111"). -/
def faceOf (query : String) : String :=
  (findMillerFace query.toList).getD "111"

/-- The element symbol a query resolves to (defaulting to "Cu"). -/
def elementOf (query : String) : String :=
  (matchLeadingElement query).getD "Cu"

/-- The physical record a symbol resolves to, with the source's fallback
`ELEMENT_PROPERTIES[sym] || ELEMENT_PROPERTIES['Cu']`. -/
def propsOf (sym : String) : ElementData :=
  (tableGet? ELEMENT_PROPERTIES sym).getD cuProps

/-- The sites of a successful analysis; an exception carries none. -/
def resultSites (e : Except JsError AnalysisResult) : List AdsorptionSite :=
  match e with
  | .ok r => r.sites
  | .error _ => []

/-- The base binding energy of the heuristic:
`-0.5 * Math.abs(enMetal - enAds)` with the metal electronegativity
resolved through the physical table's Cu fallback. -/
def baseBindingOf (struct : MaterialStructure) (adsorbate : String) : ℚ :=
  -0.5 * |(propsOf struct.formula).electronegativity - enAdsOf adsorbate|

/-! ## Structural lemmas about the site engine -/

theorem mem_topSites {rand : ℕ → ℚ} :
    ∀ {l : List Atom} {n : ℕ} {site : AdsorptionSite},
      site ∈ (topSites l rand n).1 → ∃ a ∈ l, site = topSiteOf a := by
  intro l
  induction l with
  | nil => intro n site h; simp [topSites] at h
  | cons a rest ih =>
    intro n site h
    simp only [topSites] at h
    by_cases hr : rand n > 0.7
    · rw [if_pos hr] at h
      obtain ⟨b, hb, hsite⟩ := ih h
      exact ⟨b, List.mem_cons_of_mem _ hb, hsite⟩
    · rw [if_neg hr] at h
      rcases List.mem_cons.mp h with h | h
      · exact ⟨a, List.mem_cons_self a rest, h⟩
      · obtain ⟨b, hb, hsite⟩ := ih h
        exact ⟨b, List.mem_cons_of_mem _ hb, hsite⟩

theorem mem_bridgeSites {rand : ℕ → ℚ} :
    ∀ {ps : List (Atom × Atom)} {n : ℕ} {site : AdsorptionSite},
      site ∈ (bridgeSites ps rand n).1 →
        ∃ p ∈ ps, (distSq p.1 p.2 < 9 ∧ distSq p.1 p.2 > 4) ∧
          site = bridgeSiteOf p.1 p.2 := by
  intro ps
  induction ps with
  | nil => intro n site h; simp [bridgeSites] at h
  | cons p rest ih =>
    intro n site h
    obtain ⟨a1, a2⟩ := p
    simp only [bridgeSites] at h
    by_cases hd : distSq a1 a2 < 9 ∧ distSq a1 a2 > 4
    · rw [if_pos hd] at h
      by_cases hr : rand n > 0.8
      · rw [if_pos hr] at h
        rcases List.mem_cons.mp h with h | h
        · exact ⟨(a1, a2), List.mem_cons_self _ rest, hd, h⟩
        · obtain ⟨q, hq, hw, hsite⟩ := ih h
          exact ⟨q, List.mem_cons_of_mem _ hq, hw, hsite⟩
      · rw [if_neg hr] at h
        obtain ⟨q, hq, hw, hsite⟩ := ih h
        exact ⟨q, List.mem_cons_of_mem _ hq, hw, hsite⟩
    · rw [if_neg hd] at h
      obtain ⟨q, hq, hw, hsite⟩ := ih h
      exact ⟨q, List.mem_cons_of_mem _ hq, hw, hsite⟩

theorem mem_orderedPairsOf :
    ∀ {l : List Atom} {p : Atom × Atom},
      p ∈ orderedPairsOf l → p.1 ∈ l ∧ p.2 ∈ l := by
  intro l
  induction l with
  | nil => intro p h; simp [orderedPairsOf] at h
  | cons a rest ih =>
    intro p h
    simp only [orderedPairsOf, List.mem_append, List.mem_map] at h
    rcases h with ⟨b, hb, hp⟩ | h
    · cases hp
      exact ⟨List.mem_cons_self a rest, List.mem_cons_of_mem _ hb⟩
    · obtain ⟨h1, h2⟩ := ih h
      exact ⟨List.mem_cons_of_mem _ h1, List.mem_cons_of_mem _ h2⟩

theorem mem_scoreSites {base : ℚ} {rand : ℕ → ℚ} :
    ∀ {l : List AdsorptionSite} {n : ℕ} {site : AdsorptionSite},
      site ∈ (scoreSites base rand l n).1 →
        ∃ s0 ∈ l, ∃ k,
          site = { s0 with energy := base + siteFactor s0.type + (rand k - 0.5) * 0.2 } := by
  intro l
  induction l with
  | nil => intro n site h; simp [scoreSites] at h
  | cons s rest ih =>
    intro n site h
    simp only [scoreSites, List.mem_cons] at h
    rcases h with h | h
    · exact ⟨s, List.mem_cons_self s rest, n, h⟩
    · obtain ⟨s0, hs0, k, hk⟩ := ih h
      exact ⟨s0, List.mem_cons_of_mem _ hs0, k, hk⟩

/-- Shape of every successful analysis: the returned sites are the first
eight of the energy-sorted scored candidates, and every candidate is
either a sampled top site, a sampled bridge site, or the fallback hollow
site built from the first surface atom. -/
theorem calc_ok_shape {struct : MaterialStructure} {ads : String} {rand : ℕ → ℚ}
    {res : AnalysisResult}
    (h : calculateAdsorptionPhysics struct ads rand = .ok res) :
    ∃ (l : List AdsorptionSite) (n : ℕ),
      res.sites = ((scoreSites (baseBindingOf struct ads) rand l n).1.insertionSort siteLE).take 8 ∧
      ∀ s0 ∈ l,
        s0 ∈ (topSites (surfaceAtomsOf struct) rand 0).1 ∨
        s0 ∈ (bridgeSites (orderedPairsOf (surfaceAtomsOf struct)) rand
                (topSites (surfaceAtomsOf struct) rand 0).2).1 ∨
        (∃ sa0 rest, surfaceAtomsOf struct = sa0 :: rest ∧
          s0 = hollowSiteOf sa0 ((maxZ? struct.atoms).getD 0)) := by
  unfold calculateAdsorptionPhysics at h
  dsimp only at h
  split at h
  · -- fewer than five candidates: the hollow fallback runs
    split at h
    · -- no surface atom: a TypeError is thrown, contradicting `.ok`
      simp [Except.bind] at h
    · rename_i sa0 rest heq
      simp only [Except.bind] at h
      rw [Except.ok.injEq] at h
      subst h
      refine ⟨_, _, rfl, ?_⟩
      intro s0 hs0
      rcases List.mem_append.mp hs0 with hs0 | hs0
      · rcases List.mem_append.mp hs0 with hs0 | hs0
        · exact Or.inl hs0
        · exact Or.inr (Or.inl hs0)
      · simp only [List.mem_singleton] at hs0
        exact Or.inr (Or.inr ⟨sa0, rest, heq, hs0⟩)
  · -- five or more candidates: no hollow fallback
    simp only [Except.bind] at h
    rw [Except.ok.injEq] at h
    subst h
    refine ⟨_, _, rfl, ?_⟩
    intro s0 hs0
    rcases List.mem_append.mp hs0 with hs0 | hs0
    · exact Or.inl hs0
    · exact Or.inr (Or.inl hs0)

/-! ## The claims -/

/-- **C1.** For a `MaterialStructure` with zero atoms (and hence zero
surface atoms) and any adsorbate, `calculateAdsorptionPhysics` does not
fail with an explicit Empty-structure condition: it throws the generic
JavaScript `TypeError` of reading a property of `undefined`, raised by
the hollow fallback's access `surfaceAtoms[0]` on the empty surface-atom
array.  This is exactly the "unrelated indexing error" the claim rules
out, so the code contradicts the specified (and spec-documented) intent
of an explicit empty-structure failure. -/
theorem claim_C1_empty_structure_throws_generic_typeError :
    ∀ (formula mpId millerIndex description symm : String)
      (formationEnergy bandGap : ℚ) (latticeVectors : List (List ℚ))
      (adsorbate : String) (rand : ℕ → ℚ),
      calculateAdsorptionPhysics
        { formula := formula, mpId := mpId, millerIndex := millerIndex
          description := description, formationEnergy := formationEnergy
          bandGap := bandGap, symmetry := symm, atoms := []
          latticeVectors := latticeVectors } adsorbate rand
        = .error (.typeError "Cannot read properties of undefined") := by
  intros
  rfl

/-- **C2.** Every analysis result's site sequence is sorted ascending by
energy (each energy is at most the next one) and contains at most 8
sites; an analysis ending in the exception carries no sites at all. -/
theorem claim_C2_sites_sorted_and_bounded :
    ∀ (struct : MaterialStructure) (adsorbate : String) (rand : ℕ → ℚ),
      List.Pairwise (fun a b : AdsorptionSite => a.energy ≤ b.energy)
        (resultSites (calculateAdsorptionPhysics struct adsorbate rand)) ∧
      (resultSites (calculateAdsorptionPhysics struct adsorbate rand)).length ≤ 8 := by
  intro struct ads rand
  cases hc : calculateAdsorptionPhysics struct ads rand with
  | error e => simp [resultSites]
  | ok res =>
    obtain ⟨l, n, hsites, -⟩ := calc_ok_shape hc
    have hsorted : List.Sorted siteLE
        ((scoreSites (baseBindingOf struct ads) rand l n).1.insertionSort siteLE) :=
      List.sorted_insertionSort siteLE _
    constructor
    · simpa [resultSites, hsites] using
        hsorted.sublist (List.take_sublist 8 _)
    · rw [show resultSites (Except.ok res) = res.sites from rfl, hsites]
      exact List.length_take_le 8 _

/-- **C3, counterexample.**  The claim is false as stated: the physical
table `ELEMENT_PROPERTIES` defines no fallback key "X" at all, the
physical lookup of an unknown symbol (here "Qq") falls back to the `Cu`
record (lattice constant 3.615, id mp-30) rather than to any
color/radius default record, and the display color produced for an
unknown symbol is the lowercase literal "#ff00ff", which differs as a
string from the claimed "#FF00FF". -/
theorem claim_C3_counterexample :
    tableGet? ELEMENT_PROPERTIES "X" = none ∧
    propsOf "Qq" = cuProps ∧
    cuProps.mpId = "mp-30" ∧
    (createAtom "Qq" 0 0 0 0).color = "#ff00ff" ∧
    (createAtom "Qq" 0 0 0 0).color ≠ "#FF00FF" := by
  refine ⟨by decide, ?_, by decide, by decide, by decide⟩
  simp [propsOf, tableGet?, ELEMENT_PROPERTIES]

/-- **C3, amended.**  For every symbol keyed in none of the tables, the
lookups still never fail: `createAtom` falls back to the color literal
"#ff00ff" (the color table's "X" entry up to letter case) and to radius
1.0 (the radius table's "X" entry), while the physical lookup falls back
to the `Cu` record; the two display tables share the fallback key "X",
but `ELEMENT_PROPERTIES` has no "X" key and its designated fallback is
"Cu". -/
theorem claim_C3_amended_total_fallbacks :
    ∀ (sym : String) (x y z : ℚ) (i : ℕ),
      tableGet? CPK_COLORS sym = none →
      tableGet? ATOMIC_RADII sym = none →
      tableGet? ELEMENT_PROPERTIES sym = none →
      (createAtom sym x y z i).color = "#ff00ff" ∧
      (createAtom sym x y z i).radius = 1.0 ∧
      propsOf sym = cuProps ∧
      tableGet? CPK_COLORS "X" = some "#FF00FF" ∧
      tableGet? ATOMIC_RADII "X" = some 1.0 := by
  intro sym x y z i h1 h2 h3
  refine ⟨?_, ?_, ?_, by decide, by simp [tableGet?, ATOMIC_RADII]⟩
  · simp [createAtom, h1]
  · simp [createAtom, h2]
  · simp [propsOf, h3]

/-- Witness for the amended C3 at the untabulated symbol "Qq". -/
theorem claim_C3_amended_witness :
    (tableGet? CPK_COLORS "Qq" = none ∧
     tableGet? ATOMIC_RADII "Qq" = none ∧
     tableGet? ELEMENT_PROPERTIES "Qq" = none) ∧
    ((createAtom "Qq" 0 0 0 0).color = "#ff00ff" ∧
     (createAtom "Qq" 0 0 0 0).radius = 1.0 ∧
     propsOf "Qq" = cuProps ∧
     tableGet? CPK_COLORS "X" = some "#FF00FF" ∧
     tableGet? ATOMIC_RADII "X" = some 1.0) :=
  ⟨⟨by simp [tableGet?, CPK_COLORS], by simp [tableGet?, ATOMIC_RADII],
    by simp [tableGet?, ELEMENT_PROPERTIES]⟩,
   claim_C3_amended_total_fallbacks "Qq" 0 0 0 0 (by simp [tableGet?, CPK_COLORS])
     (by simp [tableGet?, ATOMIC_RADII]) (by simp [tableGet?, ELEMENT_PROPERTIES])⟩

/-- **C6.** Parsing is as claimed: the formula is the leading
one-uppercase-plus-optional-lowercase match (fallback "Cu") and the
Miller index is the parenthesized first 3-digit group (fallback "111"),
for every query and every value of the abstracted constants; in
particular "Au(111)" parses to "Au"/"(111)" and "garbage" to the
fallbacks "Cu"/"(111)", never an error. -/
theorem claim_C6_parsing_deterministic_with_fallbacks :
    ∀ (query : String) (s2 s3 s6 : ℚ),
      (generateSlabStructure "Au(111)" s2 s3 s6).formula = "Au" ∧
      (generateSlabStructure "Au(111)" s2 s3 s6).millerIndex = "(111)" ∧
      (generateSlabStructure "garbage" s2 s3 s6).formula = "Cu" ∧
      (generateSlabStructure "garbage" s2 s3 s6).millerIndex = "(111)" ∧
      (generateSlabStructure query s2 s3 s6).formula = elementOf query ∧
      (generateSlabStructure query s2 s3 s6).millerIndex = "(" ++ faceOf query ++ ")" := by
  intro query s2 s3 s6
  exact ⟨rfl, rfl, rfl, rfl, rfl, rfl⟩

/-- **C9.** `generateSlabStructure` is deterministic: two invocations on
the identical query (and the same abstracted square-root constants)
agree on every field — formula, Miller index, scalar fields, the whole
atom sequence and the lattice vectors.  The embedding is a pure function
of its arguments because the source path contains no `Math.random()`
call, so both invocations denote the same value. -/
theorem claim_C9_build_deterministic :
    ∀ (query : String) (s2 s3 s6 : ℚ),
      (generateSlabStructure query s2 s3 s6).formula
          = (generateSlabStructure query s2 s3 s6).formula ∧
      (generateSlabStructure query s2 s3 s6).millerIndex
          = (generateSlabStructure query s2 s3 s6).millerIndex ∧
      (generateSlabStructure query s2 s3 s6).atoms
          = (generateSlabStructure query s2 s3 s6).atoms ∧
      (generateSlabStructure query s2 s3 s6).latticeVectors
          = (generateSlabStructure query s2 s3 s6).latticeVectors ∧
      generateSlabStructure query s2 s3 s6 = generateSlabStructure query s2 s3 s6 := by
  intro query s2 s3 s6
  exact ⟨rfl, rfl, rfl, rfl, rfl⟩

/-- Removing digits from the label cannot change the letter-containment
tests, so the electronegativity bucket of the stripped label coincides
with the one the source computes from the unstripped label. -/
theorem enAdsOf_stripDigits (s : String) : enAdsOf (stripDigits s) = enAdsOf s := by
  have hmem : ∀ c : Char, !c.isDigit →
      (c ∈ (stripDigits s).toList ↔ c ∈ s.toList) := by
    intro c hc
    simp [stripDigits, String.toList, List.mem_filter, hc]
  simp only [enAdsOf, hmem 'O' (by decide), hmem 'N' (by decide)]

/-- Every site of every successful analysis is a rescored top, bridge or
hollow candidate; used by the membership claims below. -/
theorem mem_resultSites_cases {struct : MaterialStructure} {ads : String}
    {rand : ℕ → ℚ} {site : AdsorptionSite}
    (h : site ∈ resultSites (calculateAdsorptionPhysics struct ads rand)) :
    ∃ s0 k,
      site = { s0 with energy := baseBindingOf struct ads + siteFactor s0.type
                                   + (rand k - 0.5) * 0.2 } ∧
      ((∃ a ∈ surfaceAtomsOf struct, s0 = topSiteOf a) ∨
       (∃ p : Atom × Atom, p.1 ∈ surfaceAtomsOf struct ∧ p.2 ∈ surfaceAtomsOf struct ∧
          (distSq p.1 p.2 < 9 ∧ distSq p.1 p.2 > 4) ∧ s0 = bridgeSiteOf p.1 p.2) ∨
       (∃ sa0 rest, surfaceAtomsOf struct = sa0 :: rest ∧
          s0 = hollowSiteOf sa0 ((maxZ? struct.atoms).getD 0))) := by
  cases hc : calculateAdsorptionPhysics struct ads rand with
  | error e => rw [hc] at h; simp [resultSites] at h
  | ok res =>
    rw [hc] at h
    obtain ⟨l, n, hsites, hcand⟩ := calc_ok_shape hc
    rw [show resultSites (Except.ok res) = res.sites from rfl, hsites] at h
    have hscored := (List.mem_insertionSort siteLE).mp (List.mem_of_mem_take h)
    obtain ⟨s0, hs0, k, hk⟩ := mem_scoreSites hscored
    refine ⟨s0, k, hk, ?_⟩
    rcases hcand s0 hs0 with hcase | hcase | hcase
    · obtain ⟨a, ha, hform⟩ := mem_topSites hcase
      exact Or.inl ⟨a, ha, hform⟩
    · obtain ⟨p, hp, hw, hform⟩ := mem_bridgeSites hcase
      obtain ⟨hp1, hp2⟩ := mem_orderedPairsOf hp
      exact Or.inr (Or.inl ⟨p, hp1, hp2, hw, hform⟩)
    · exact Or.inr (Or.inr hcase)

/-- **C10.** Every site an analysis ever returns has type Top, Bridge or
Hollow; the two remaining declared refinement types fcc and hcp are
never produced, on any input and any random stream. -/
theorem claim_C10_site_types_closed :
    ∀ (struct : MaterialStructure) (adsorbate : String) (rand : ℕ → ℚ)
      (site : AdsorptionSite),
      site ∈ resultSites (calculateAdsorptionPhysics struct adsorbate rand) →
      site.type = SiteType.Top ∨ site.type = SiteType.Bridge ∨
        site.type = SiteType.Hollow := by
  intro struct ads rand site h
  obtain ⟨s0, k, hk, hcase⟩ := mem_resultSites_cases h
  have ht : site.type = s0.type := by rw [hk]
  rcases hcase with ⟨a, -, rfl⟩ | ⟨p, -, -, -, rfl⟩ | ⟨sa0, rest, -, rfl⟩
  · exact Or.inl (by rw [ht]; rfl)
  · exact Or.inr (Or.inl (by rw [ht]; rfl))
  · exact Or.inr (Or.inr (by rw [ht]; rfl))

/-- **C8.** Every emitted Top site sits at a surface atom's x,y with z
raised by 2.0; every emitted Bridge site stems from a pair of surface
atoms whose squared separation lies strictly between 2² and 3² (i.e.
whose Euclidean separation lies strictly between 2 Å and 3 Å) and sits
at the pair's midpoint with z raised by 1.8; in particular no pair
outside the window ever yields a Bridge site. -/
theorem claim_C8_top_bridge_geometry :
    ∀ (struct : MaterialStructure) (adsorbate : String) (rand : ℕ → ℚ)
      (site : AdsorptionSite),
      site ∈ resultSites (calculateAdsorptionPhysics struct adsorbate rand) →
      (site.type = SiteType.Top →
        ∃ a ∈ surfaceAtomsOf struct, site.coordinates = (a.x, a.y, a.z + 2.0)) ∧
      (site.type = SiteType.Bridge →
        ∃ a1 a2, a1 ∈ surfaceAtomsOf struct ∧ a2 ∈ surfaceAtomsOf struct ∧
          2 ^ 2 < distSq a1 a2 ∧ distSq a1 a2 < 3 ^ 2 ∧
          site.coordinates =
            ((a1.x + a2.x) / 2, (a1.y + a2.y) / 2, (a1.z + a2.z) / 2 + 1.8)) := by
  intro struct ads rand site h
  obtain ⟨s0, k, hk, hcase⟩ := mem_resultSites_cases h
  have ht : site.type = s0.type := by rw [hk]
  have hcoord : site.coordinates = s0.coordinates := by rw [hk]
  rcases hcase with ⟨a, ha, rfl⟩ | ⟨p, hp1, hp2, hw, rfl⟩ | ⟨sa0, rest, hsa, rfl⟩
  · refine ⟨fun _ => ⟨a, ha, by rw [hcoord]; rfl⟩, fun hb => ?_⟩
    rw [ht] at hb
    simp [topSiteOf] at hb
  · refine ⟨fun htop => ?_, fun _ => ?_⟩
    · rw [ht] at htop
      simp [bridgeSiteOf] at htop
    · refine ⟨p.1, p.2, hp1, hp2, ?_, ?_, by rw [hcoord]; rfl⟩
      · have := hw.2
        norm_num at this ⊢
        exact this
      · have := hw.1
        norm_num at this ⊢
        exact this
  · refine ⟨fun htop => ?_, fun hb => ?_⟩
    · rw [ht] at htop
      simp [hollowSiteOf] at htop
    · rw [ht] at hb
      simp [hollowSiteOf] at hb

/-- **C5.** Under the `Math.random` contract (every draw lies in [0,1)),
every emitted site's energy is the base binding energy
`-0.5 * |EN(metal) - EN(adsorbate)|` — with the adsorbate bucket 3.44
for labels containing O, else 3.04 for labels containing N, else 2.55,
unchanged by stripping digits from the label — plus the per-type offset
(+0.5 Top, -0.2 Bridge, -0.8 Hollow) plus a jitter lying within
±0.1 eV. -/
theorem claim_C5_energy_formula :
    ∀ (struct : MaterialStructure) (adsorbate : String) (rand : ℕ → ℚ),
      (∀ k, 0 ≤ rand k ∧ rand k < 1) →
      ∀ site ∈ resultSites (calculateAdsorptionPhysics struct adsorbate rand),
        ∃ jitter : ℚ, -0.1 ≤ jitter ∧ jitter ≤ 0.1 ∧
          site.energy =
            -0.5 * |(propsOf struct.formula).electronegativity
                      - enAdsOf (stripDigits adsorbate)|
              + siteFactor site.type + jitter := by
  intro struct ads rand hr site h
  obtain ⟨s0, k, hk, -⟩ := mem_resultSites_cases h
  have ht : site.type = s0.type := by rw [hk]
  have he : site.energy
      = baseBindingOf struct ads + siteFactor s0.type + (rand k - 0.5) * 0.2 := by
    rw [hk]
  refine ⟨(rand k - 0.5) * 0.2, ?_, ?_, ?_⟩
  · have h0 := (hr k).1
    norm_num
    linarith
  · have h1 := (hr k).2
    norm_num
    linarith
  · rw [he, ht, enAdsOf_stripDigits, baseBindingOf]

/-- Every physical lookup (tabulated or Cu fallback) yields a positive
lattice constant. -/
theorem propsOf_latticeConstant_pos (sym : String) :
    0 < (propsOf sym).latticeConstant := by
  simp only [propsOf, ELEMENT_PROPERTIES, tableGet?]
  repeat' split
  all_goals norm_num [cuProps]

/-- **C4.** A query resolving to Miller face 111 (including the default)
yields exactly 2·3·3·4 = 72 atoms; any other face yields exactly
4·4·4 = 64 atoms, whose layers sit at z = k·(a/2) for k < 4 — the
inter-layer spacing is a/2, which for Cu (a = 3.615) is 1.8075 Å. -/
theorem claim_C4_atom_counts_and_spacing :
    ∀ (query : String) (s2 s3 s6 : ℚ),
      ((generateSlabStructure query s2 s3 s6).atoms.length
          = if faceOf query = "111" then 72 else 64) ∧
      (faceOf query ≠ "111" →
        ∀ atom ∈ (generateSlabStructure query s2 s3 s6).atoms,
          ∃ k : ℕ, k < 4 ∧ atom.z
            = (k : ℚ) * ((propsOf (elementOf query)).latticeConstant / 2)) ∧
      elementOf "Cu(100)" = "Cu" ∧
      faceOf "Cu(100)" = "100" ∧
      (propsOf "Cu").latticeConstant = 3.615 ∧
      (propsOf "Cu").latticeConstant / 2 = 1.8075 := by
  intro query s2 s3 s6
  refine ⟨?_, ?_, by decide, by decide, ?_, ?_⟩
  · by_cases h : faceOf query = "111"
    · rw [if_pos h]
      unfold generateSlabStructure
      dsimp only
      rw [if_pos (show (findMillerFace query.toList).getD "111" = "111" from h)]
      rfl
    · rw [if_neg h]
      unfold generateSlabStructure
      dsimp only
      rw [if_neg (show ¬ (findMillerFace query.toList).getD "111" = "111" from h)]
      rfl
  · intro h atom hmem
    unfold generateSlabStructure at hmem
    dsimp only at hmem
    rw [if_neg (show ¬ (findMillerFace query.toList).getD "111" = "111" from h)] at hmem
    simp only [List.mem_flatMap, List.mem_range, List.mem_singleton] at hmem
    obtain ⟨k, hk, j, hj, i, hi, rfl⟩ := hmem
    exact ⟨k, hk, rfl⟩  -- z is definitionally k * (a / 2)
  · simp [propsOf, tableGet?, ELEMENT_PROPERTIES]
  · have : (propsOf "Cu").latticeConstant = 3.615 := by
      simp [propsOf, tableGet?, ELEMENT_PROPERTIES]
    rw [this]
    norm_num

/-- Witness for C4 at the query "Cu(100)": the other-face branch with 64
atoms at the claimed layer heights. -/
theorem claim_C4_witness :
    faceOf "Cu(100)" ≠ "111" ∧
    (generateSlabStructure "Cu(100)" 1 1 1).atoms.length = 64 ∧
    ∀ atom ∈ (generateSlabStructure "Cu(100)" 1 1 1).atoms,
      ∃ k : ℕ, k < 4 ∧ atom.z
        = (k : ℚ) * ((propsOf (elementOf "Cu(100)")).latticeConstant / 2) := by
  have hmain := claim_C4_atom_counts_and_spacing "Cu(100)" 1 1 1
  have hne : faceOf "Cu(100)" ≠ "111" := by decide
  refine ⟨hne, ?_, hmain.2.1 hne⟩
  have hlen := hmain.1
  rwa [if_neg hne] at hlen

/-- **C7.** Every built structure has exactly 3 lattice vectors, and the
surface-normal (third) vector is [0, 0, c] with c strictly positive —
so its Euclidean magnitude is c — where c equals the sum of the four
per-layer spacings (a/√3 per layer on the 111 path, a/2 per layer
otherwise) plus exactly the 10 Å vacuum constant. -/
theorem claim_C7_lattice_vectors_vacuum :
    ∀ (query : String) (s2 s3 s6 : ℚ), 0 < s2 → 0 < s3 →
      (generateSlabStructure query s2 s3 s6).latticeVectors.length = 3 ∧
      ∃ c : ℚ,
        (generateSlabStructure query s2 s3 s6).latticeVectors.getLast? = some [0, 0, c] ∧
        c = 4 * (if faceOf query = "111"
                 then (propsOf (elementOf query)).latticeConstant / s3
                 else (propsOf (elementOf query)).latticeConstant / 2) + 10 ∧
        0 < c := by
  intro query s2 s3 s6 hs2 hs3
  have ha : 0 < (propsOf (elementOf query)).latticeConstant :=
    propsOf_latticeConstant_pos _
  by_cases h : faceOf query = "111"
  · refine ⟨?_, (propsOf (elementOf query)).latticeConstant / s3 * ((4 : ℕ) : ℚ) + 10,
      ?_, ?_, ?_⟩
    · unfold generateSlabStructure
      dsimp only
      rw [if_pos (show (findMillerFace query.toList).getD "111" = "111" from h)]
      rfl
    · unfold generateSlabStructure
      dsimp only
      rw [if_pos (show (findMillerFace query.toList).getD "111" = "111" from h)]
      rfl
    · rw [if_pos h]
      push_cast
      ring
    · have h4 : ((4 : ℕ) : ℚ) = 4 := by norm_num
      rw [h4]
      have hpos : 0 < (propsOf (elementOf query)).latticeConstant / s3 :=
        div_pos ha hs3
      linarith
  · refine ⟨?_, (propsOf (elementOf query)).latticeConstant / s2 * s2 * 0.5 * ((4 : ℕ) : ℚ)
      + 10, ?_, ?_, ?_⟩
    · unfold generateSlabStructure
      dsimp only
      rw [if_neg (show ¬ (findMillerFace query.toList).getD "111" = "111" from h)]
      rfl
    · unfold generateSlabStructure
      dsimp only
      rw [if_neg (show ¬ (findMillerFace query.toList).getD "111" = "111" from h)]
      rfl
    · rw [if_neg h]
      have hs2ne : s2 ≠ 0 := ne_of_gt hs2
      push_cast
      field_simp
      ring
    · have hcancel : (propsOf (elementOf query)).latticeConstant / s2 * s2
          = (propsOf (elementOf query)).latticeConstant :=
        div_mul_cancel₀ _ (ne_of_gt hs2)
      have h4 : ((4 : ℕ) : ℚ) = 4 := by norm_num
      rw [hcancel, h4]
      linarith

/-- Witness for C7 at "Cu(100)" with positive parameter values. -/
theorem claim_C7_witness :
    ((0 : ℚ) < 2 ∧ (0 : ℚ) < 2) ∧
    ((generateSlabStructure "Cu(100)" 2 2 2).latticeVectors.length = 3 ∧
     ∃ c : ℚ,
       (generateSlabStructure "Cu(100)" 2 2 2).latticeVectors.getLast? = some [0, 0, c] ∧
       c = 4 * (if faceOf "Cu(100)" = "111"
                then (propsOf (elementOf "Cu(100)")).latticeConstant / 2
                else (propsOf (elementOf "Cu(100)")).latticeConstant / 2) + 10 ∧
       0 < c) :=
  ⟨⟨by norm_num, by norm_num⟩,
   claim_C7_lattice_vectors_vacuum "Cu(100)" 2 2 2 (by norm_num) (by norm_num)⟩

/-! ## A concrete run used by the witnesses

A single Cu atom at the origin, analysed for "CO" with the constant-zero
random stream: the top sample is kept (0 ≤ 0.7), there is no atom pair,
the hollow fallback fires, and the energies are
-0.77 + 0.5 - 0.1 = -0.37 (top) and -0.77 - 0.8 - 0.1 = -1.67 (hollow). -/

def wAtom : Atom :=
  { id := 0, element := "Cu", x := 0, y := 0, z := 0, color := "#C88033", radius := 1.28 }

def wStructure : MaterialStructure :=
  { formula := "Cu", mpId := "mp-30", millerIndex := "(100)"
    description := "single atom slab", formationEnergy := 0, bandGap := 0
    symmetry := "Fm-3m", atoms := [wAtom], latticeVectors := [] }

def wRand : ℕ → ℚ := fun _ => 0

def wTopSite : AdsorptionSite :=
  { id := "top-0", type := .Top, coordinates := (0, 0, 2), energy := -0.37
    description := "On-top of atom #0" }

def wHollowSite : AdsorptionSite :=
  { id := "hollow-1", type := .Hollow, coordinates := (1.2, 0.8, 1.5), energy := -1.67
    description := "fcc hollow" }

theorem wMaxZ : maxZ? wStructure.atoms = some 0 := by
  simp [maxZ?, wStructure, wAtom]

theorem wSurface : surfaceAtomsOf wStructure = [wAtom] := by
  rw [surfaceAtomsOf, wMaxZ]
  simp only [wStructure, wAtom, List.filter_cons, List.filter_nil, decide_eq_true_eq]
  norm_num

theorem wTops : topSites [wAtom] wRand 0 = ([topSiteOf wAtom], 1) := by
  simp only [topSites, wRand]
  norm_num

theorem wBase : baseBindingOf wStructure "CO" = -0.77 := by
  have h1 : (propsOf wStructure.formula).electronegativity = 1.90 := by
    simp [propsOf, tableGet?, ELEMENT_PROPERTIES, wStructure]
  have h2 : enAdsOf "CO" = 3.44 := by
    simp [enAdsOf]
  rw [baseBindingOf, h1, h2]
  rw [show (1.90 : ℚ) - 3.44 = -1.54 from by norm_num, abs_neg,
    abs_of_nonneg (by norm_num : (0:ℚ) ≤ 1.54)]
  norm_num

theorem wScored :
    (scoreSites (-0.77 : ℚ) wRand [topSiteOf wAtom, hollowSiteOf wAtom 0] 1).1
      = [wTopSite, wHollowSite] := by
  simp only [scoreSites, wRand, topSiteOf, hollowSiteOf, siteFactor, wAtom,
    wTopSite, wHollowSite]
  norm_num
  exact ⟨rfl, rfl⟩

theorem wShape :
    resultSites (calculateAdsorptionPhysics wStructure "CO" wRand)
      = ((scoreSites (baseBindingOf wStructure "CO") wRand
          [topSiteOf wAtom, hollowSiteOf wAtom 0] 1).1.insertionSort siteLE).take 8 := by
  unfold calculateAdsorptionPhysics
  rw [wSurface]
  dsimp only
  rw [wTops]
  simp only [orderedPairsOf, List.map_nil, List.nil_append, List.append_nil, bridgeSites]
  rw [if_pos (show ([topSiteOf wAtom] : List AdsorptionSite).length < 5 from by simp)]
  rw [wMaxZ]
  simp only [Except.bind, Option.getD, resultSites, List.singleton_append]
  rfl

theorem wResultSites :
    resultSites (calculateAdsorptionPhysics wStructure "CO" wRand)
      = [wHollowSite, wTopSite] := by
  rw [wShape, wBase, wScored]
  have hnot : ¬ siteLE wTopSite wHollowSite := by
    norm_num [siteLE, wTopSite, wHollowSite]
  simp only [List.insertionSort, List.orderedInsert, if_neg hnot]
  simp [List.take]

theorem wTopSite_mem :
    wTopSite ∈ resultSites (calculateAdsorptionPhysics wStructure "CO" wRand) := by
  rw [wResultSites]
  simp

/-- Witness for C10: the concrete run's top site is among the returned
sites and indeed carries one of the three produced types. -/
theorem claim_C10_witness :
    wTopSite ∈ resultSites (calculateAdsorptionPhysics wStructure "CO" wRand) ∧
    (wTopSite.type = SiteType.Top ∨ wTopSite.type = SiteType.Bridge ∨
      wTopSite.type = SiteType.Hollow) :=
  ⟨wTopSite_mem,
   claim_C10_site_types_closed wStructure "CO" wRand wTopSite wTopSite_mem⟩

/-- Witness for C8 at the concrete run's top site. -/
theorem claim_C8_witness :
    wTopSite ∈ resultSites (calculateAdsorptionPhysics wStructure "CO" wRand) ∧
    ((wTopSite.type = SiteType.Top →
        ∃ a ∈ surfaceAtomsOf wStructure,
          wTopSite.coordinates = (a.x, a.y, a.z + 2.0)) ∧
     (wTopSite.type = SiteType.Bridge →
        ∃ a1 a2, a1 ∈ surfaceAtomsOf wStructure ∧ a2 ∈ surfaceAtomsOf wStructure ∧
          2 ^ 2 < distSq a1 a2 ∧ distSq a1 a2 < 3 ^ 2 ∧
          wTopSite.coordinates =
            ((a1.x + a2.x) / 2, (a1.y + a2.y) / 2, (a1.z + a2.z) / 2 + 1.8))) :=
  ⟨wTopSite_mem,
   claim_C8_top_bridge_geometry wStructure "CO" wRand wTopSite wTopSite_mem⟩

/-- Witness for C5: the constant-zero stream satisfies the random
contract and the concrete run's top site satisfies the energy formula. -/
theorem claim_C5_witness :
    (∀ k, 0 ≤ wRand k ∧ wRand k < 1) ∧
    (∃ jitter : ℚ, -0.1 ≤ jitter ∧ jitter ≤ 0.1 ∧
      wTopSite.energy =
        -0.5 * |(propsOf wStructure.formula).electronegativity
                  - enAdsOf (stripDigits "CO")|
          + siteFactor wTopSite.type + jitter) :=
  have hr : ∀ k, 0 ≤ wRand k ∧ wRand k < 1 :=
    fun _ => ⟨le_refl 0, by norm_num [wRand]⟩
  ⟨hr, claim_C5_energy_formula wStructure "CO" wRand hr wTopSite wTopSite_mem⟩

end AdsorbAI
